import Mathlib

/-!
Verification of the OCR confidence-scoring / status pipeline and the
webhook delivery-with-retry subsystem of the MCA backend.

The Python sources embedded here:
- `src/backend/app/services/ocr_service.py` (confidence scorer, status thresholds,
  validation of file formats),
- `src/backend/app/schemas/ocr.py` (confidence-score schema validator),
- `src/backend/app/tasks/ocr_tasks.py` (task-level status transitions, failure
  handler, retry policy),
- `src/backend/app/services/webhook_service.py` (payload formatting, delivery
  attempts, tenacity retry loop),
- `src/backend/app/tasks/webhook_tasks.py` (task-level webhook processing).

Numeric values are modelled as exact rationals: every concrete confidence in the
source is integral, so means, variances and threshold comparisons are exact.
The source compares the standard deviation sigma of the confidences against 10
and 20; since sigma is the nonneg square root of the variance, these comparisons
are embedded as variance < 100 and variance < 400.
-/

/-! ## List statistics (numpy mean / std over exact rationals) -/

/-- Mean of a list of rationals, `np.mean`; `0` on the empty list (the source
never takes a mean of an empty array on the paths modelled here). -/
def listMean (l : List ℚ) : ℚ := l.sum / l.length

/-- Population variance of a list of rationals, the square of `np.std`. -/
def listVar (l : List ℚ) : ℚ :=
  (l.map (fun x => (x - listMean l) ^ 2)).sum / l.length

/-- Number of words of a character sequence under Python `str.split()`
semantics: maximal runs of non-whitespace characters. The second argument
records whether the scan is currently inside a word. -/
def pyWordCount : List Char → Bool → Nat
  | [], _ => 0
  | c :: rest, inWord =>
    if c.isWhitespace then pyWordCount rest false
    else (if inWord then 0 else 1) + pyWordCount rest true

/-- Word count of a string, `len(text.split())` in Python. -/
def pyWords (t : String) : Nat := pyWordCount t.data false

/-! ## Banker's rounding (Python `round(x, 4)`) -/

/-- Round a rational to the nearest integer, ties to even — the rounding Python
`round` uses (here applied to the exact rational value). -/
def roundHalfEven (x : ℚ) : ℤ :=
  let n := ⌊x⌋
  let r := x - n
  if r < 1 / 2 then n
  else if 1 / 2 < r then n + 1
  else if n % 2 = 0 then n else n + 1

/-- Python `round(x, 4)` on the exact rational value. -/
def round4 (x : ℚ) : ℚ := (roundHalfEven (x * 10000) : ℚ) / 10000

/-! ## Confidence scorer (`ocr_service.calculate_confidence_score`) -/

/-- Auto-approval threshold, `ocr_service.py` line 32. -/
def AUTO_APPROVE_THRESHOLD : ℚ := 0.95

/-- Manual-review threshold, `ocr_service.py` line 33. -/
def MANUAL_REVIEW_THRESHOLD : ℚ := 0.70

/-- The numpy filter `word_confidences[word_confidences != -1]` from
`ocr_service.py` line 231: keep exactly the entries different from `-1`. -/
def validConfs : List ℚ → List ℚ
  | [] => []
  | x :: rest => if x = -1 then validConfs rest else x :: validConfs rest

/-- Embedding of `calculate_confidence_score` (`ocr_service.py` lines 213-268).
The Python function receives the whole `ocr_data` dict; only its `conf` entry is
read, so the embedding takes the confidence list directly (an empty dict and an
empty confidence list both yield `0.0` in the source). The comparisons of the
standard deviation against 10 and 20 are embedded as comparisons of the
variance against 100 and 400. The returned value is clamped to `[0, 1]` and is
NOT rounded by this function. -/
def calculate_confidence_score (t : String) (conf : List ℚ) : ℚ :=
  if t = "" then 0
  else
    let valid := validConfs conf
    if valid.length = 0 then 0
    else
      let base := listMean valid / 100
      let lenFactor : ℚ := if 10 ≤ pyWords t then 1 else 8 / 10
      let consFactor : ℚ :=
        if listVar valid < 100 then 11 / 10
        else if listVar valid < 400 then 1
        else 9 / 10
      let finalScore := base * ((lenFactor + consFactor) / 2)
      max 0 (min 1 finalScore)

/-- Embedding of the pydantic validator `OCRBase.validate_confidence_score`
(`schemas/ocr.py` lines 56-68): reject a value outside `[0, 1]`, otherwise
round it to 4 decimal places. -/
def validate_confidence_score (v : ℚ) : Except String ℚ :=
  if v < 0 ∨ 1 < v then Except.error "Confidence score must be between 0.0 and 1.0"
  else Except.ok (round4 v)

/-- Reference confidence scorer, written from the specification's words: filter
out the `-1` sentinels; return `0` on empty text or no remaining confidences;
base score is `mean / 100`; the length factor is `1.0` for at least 10 words
else `0.8`; the consistency factor is `1.1`, `1.0` or `0.9` by the standard
deviation bands `[0,10)`, `[10,20)`, `[20,∞)` (encoded on the variance); the
result is the base score times the mean of the two factors, clamped to `[0,1]`
and rounded to 4 decimal places. -/
def referenceScore (t : String) (conf : List ℚ) : ℚ :=
  let valid := validConfs conf
  if t = "" ∨ valid = [] then 0
  else
    let base := listMean valid / 100
    let f1 : ℚ := if 10 ≤ pyWords t then 1 else 8 / 10
    let f2 : ℚ :=
      if listVar valid < 100 then 11 / 10
      else if listVar valid < 400 then 1
      else 9 / 10
    round4 (max 0 (min 1 (base * listMean [f1, f2])))

/-! ## Status thresholds -/

/-- Status chosen by `process_document` (`ocr_service.py` lines 171-177) from a
confidence score. -/
def process_document_status (s : ℚ) : String :=
  if AUTO_APPROVE_THRESHOLD ≤ s then "processed"
  else if MANUAL_REVIEW_THRESHOLD ≤ s then "needs_review"
  else "failed"

/-- Status chosen by `ocr_task` (`ocr_tasks.py` lines 130-135) from a
confidence score; the thresholds are written literally there. -/
def ocr_task_status (s : ℚ) : String :=
  if 0.95 ≤ s then "processed"
  else if 0.70 ≤ s then "needs_review"
  else "failed"

/-! ## Document pipeline state machine (`ocr_tasks.py`, `ocr_service.py`)

A document is modelled by the two fields the claims are about. The metadata
bag and storage path are unchanged by no transition relevant to the claims
and are omitted. -/

/-- Document state: processing status and the nullable OCR confidence score. -/
structure Doc where
  status : String
  confidence_score : Option ℚ
  deriving DecidableEq, Repr

/-- A freshly uploaded document: `status="pending"`, no confidence score
(`models/document.py` default, `documents.py` upload path). -/
def doc_init : Doc := ⟨"pending", none⟩

/-- `ocr_task` line 109: `document.status = "processing"` before the OCR
service runs. Other fields untouched. -/
def doc_start_processing (d : Doc) : Doc := { d with status := "processing" }

/-- `ocr_task` lines 130-139 (and equivalently `process_document` lines
171-184): on a completed OCR run with score `s`, the status is derived from
the thresholds and the confidence score is stored. -/
def doc_success (d : Doc) (s : ℚ) : Doc :=
  { d with status := ocr_task_status s, confidence_score := some s }

/-- `ocr_task` line 170: on a retryable error the document is parked in
`"retry_pending"` and `self.retry` is scheduled. The confidence score is not
touched. -/
def doc_retry_pending (d : Doc) : Doc := { d with status := "retry_pending" }

/-- `OCRTask.on_failure` (`ocr_tasks.py` lines 39-72): the terminal failure
handler sets `status="failed"` and records the error in metadata; it does NOT
write a confidence score. -/
def doc_on_failure (d : Doc) : Doc := { d with status := "failed" }

/-- Statuses the specification calls terminal. -/
def TERMINAL_STATUSES : List String := ["processed", "needs_review", "failed"]

/-- The five-value status enumeration of the specification's external read
contract. -/
def SPEC_STATUSES : List String :=
  ["pending", "processing", "processed", "needs_review", "failed"]

/-- Every status value the pipeline code can actually store on a document:
the five specified ones plus the `"retry_pending"` parking status written by
`ocr_task`'s retry path. -/
def PIPELINE_STATUSES : List String :=
  ["pending", "processing", "processed", "needs_review", "failed", "retry_pending"]

/-- Document states reachable through the OCR pipeline, starting from a fresh
upload. `start` fires on a pending or retry-parked document (a celery retry
re-runs the task body); `success`, `retry` fire from the processing state;
the `on_failure` handler can fire whenever the task dies, whatever the last
persisted status was. Reprocessing of terminal documents is an explicit
administrative action outside the pipeline and is not a transition here. -/
inductive DocReach : Doc → Prop
  | init : DocReach doc_init
  | start {d : Doc} : DocReach d →
      (d.status = "pending" ∨ d.status = "retry_pending") →
      DocReach (doc_start_processing d)
  | success {d : Doc} (s : ℚ) : DocReach d → d.status = "processing" →
      DocReach (doc_success d s)
  | retry {d : Doc} : DocReach d → d.status = "processing" →
      DocReach (doc_retry_pending d)
  | fail {d : Doc} : DocReach d → DocReach (doc_on_failure d)

/-! ## OCR validation failures and the task retry decision -/

/-- The Python exception classes that matter to the `ocr_task` error handler:
`CustomException` (`core/exceptions.py`) carries its error code and is NOT a
subclass of `ValueError` or `KeyError`. -/
inductive PyExc
  | valueError (msg : String)
  | keyError (msg : String)
  | customException (code : String) (msg : String)
  | generic (msg : String)
  deriving DecidableEq, Repr

/-- Supported file formats, `ocr_service.py` line 34. -/
def SUPPORTED_FORMATS : List String := [".pdf", ".png", ".jpg", ".jpeg", ".tiff"]

/-- Index of the last occurrence of a character in a list, counting from the
given starting index (helper for `os.path.splitext`). -/
def lastIdxAux : List Char → Char → Nat → Option Nat
  | [], _, _ => none
  | x :: rest, c, i =>
    match lastIdxAux rest c (i + 1) with
    | some j => some j
    | none => if x = c then some i else none

/-- Index of the last occurrence of a character in a list. -/
def lastIdx (cs : List Char) (c : Char) : Option Nat := lastIdxAux cs c 0

/-- Extension part of `os.path.splitext` (posixpath): the extension starts at
the last dot, provided that dot lies after the last slash and some character
strictly between the last slash and that dot differs from a dot (so dotfiles
such as `.bashrc` have no extension). -/
def splitext_ext (s : String) : String :=
  let cs := s.data
  match lastIdx cs '.' with
  | none => ""
  | some d =>
    let si : Nat := match lastIdx cs '/' with | none => 0 | some k => k + 1
    if si ≤ d ∧ ((cs.drop si).take (d - si)).any (fun c => decide (c ≠ '.')) then
      String.mk (cs.drop d)
    else ""

/-- `os.path.splitext(path)[1].lower()` as used by `process_document` line
114. -/
def lower_ext (s : String) : String :=
  String.mk ((splitext_ext s).data.map Char.toLower)

/-- The validation prefix of `process_document` (`ocr_service.py` lines
102-119): a missing document raises `CustomException` with code `NOT_FOUND`,
an unsupported storage-path extension raises `CustomException` with code
`VALIDATION_ERROR`; otherwise validation passes (`none`). -/
def process_document_validation (doc_found : Bool) (storage_path : String) :
    Option PyExc :=
  if !doc_found then some (.customException "NOT_FOUND" "Document not found")
  else if !(SUPPORTED_FORMATS.contains (lower_ext storage_path)) then
    some (.customException "VALIDATION_ERROR" "Unsupported file format")
  else none

/-- The `ocr_task` exception handler's retry decision (`ocr_tasks.py` lines
161-193): `ValueError` and `KeyError` are re-raised without retry; every
other exception takes the retry path (`status="retry_pending"`, `self.retry`
with exponential backoff). -/
def ocr_task_retries_on : PyExc → Bool
  | .valueError _ => false
  | .keyError _ => false
  | _ => true

/-! ## Webhook dispatch subsystem (`webhook_service.py`, `webhook_tasks.py`) -/

/-- Maximum retry attempts; the constant is 3 in `webhook_service.py` line
31, `webhook_tasks.py` line 28 and `ocr_tasks.py` line 27. -/
def MAX_RETRIES : Nat := 3

/-- Webhook record state. Timestamps are abstract ticks; metadata is a
key/value bag whose values record only that an entry was written. The
`application_id` and `id` fields hold the already-stringified UUIDs. -/
structure Webhook where
  id : String
  application_id : String
  event : String
  url : String
  status : String
  retry_count : Nat
  delivered : Bool
  delivered_at : Option Nat
  metadata : List (String × String)
  deriving DecidableEq, Repr

/-- Python `dict.update({k: v})`: the key is (re)bound to the value. -/
def mdUpdate (m : List (String × String)) (k v : String) :
    List (String × String) :=
  (k, v) :: m.filter (fun p => !(p.1 == k))

/-- `register_webhook` (`webhook_service.py` lines 61-73): a fresh webhook is
persisted with `status="pending"`, `retry_count=0`; the `delivered` column
keeps its model default `False` (`models/webhook.py` lines 74-80) and
`delivered_at` its default `NULL`. -/
def register_webhook (wid application_id event url : String) : Webhook :=
  { id := wid, application_id := application_id, event := event, url := url,
    status := "pending", retry_count := 0, delivered := false,
    delivered_at := none, metadata := [] }

/-- JSON-ish values for the wire payload. -/
inductive JVal
  | str (s : String)
  | num (q : ℚ)
  | obj (fields : List (String × JVal))
  deriving Repr

/-- The POST body built by `trigger_webhook` (`webhook_service.py` lines
181-191), in source order. `data` is the supplied payload and `now` the
ISO-8601 UTC timestamp string. -/
def formatted_payload (w : Webhook) (data : JVal) (now : String) :
    List (String × JVal) :=
  [("event", .str w.event),
   ("application_id", .str w.application_id),
   ("timestamp", .str now),
   ("data", data),
   ("metadata", .obj [("processing_time", .num 0), ("version", .str "1.0")])]

/-- The request headers built by `trigger_webhook` (`webhook_service.py`
lines 173-179), with `token` the signed token from `generate_token`. -/
def trigger_headers (w : Webhook) (token : String) : List (String × String) :=
  [("Authorization", "Bearer " ++ token),
   ("Content-Type", "application/json"),
   ("X-Webhook-Event", w.event),
   ("X-Webhook-ID", w.id)]

/-- The successful-delivery tail of `trigger_webhook` (`webhook_service.py`
lines 205-220): on a 2xx response the status becomes `"delivered"`,
`delivered_at` is stamped, a `last_delivery` metadata entry is written and
`True` is returned. No other field is assigned — in particular the
`delivered` boolean column is not. -/
def trigger_success (w : Webhook) (tnow : Nat) : Webhook × Bool :=
  ({ w with status := "delivered",
            delivered_at := some tnow,
            metadata := mdUpdate w.metadata "last_delivery" "recorded" }, true)

/-- One failed delivery attempt inside `trigger_webhook` (`webhook_service.py`
lines 222-232): on a `RequestException` the retry count is incremented, the
status set to `"failed"` and a `last_error` metadata entry written. -/
def trigger_fail_step (w : Webhook) : Webhook :=
  { w with retry_count := w.retry_count + 1,
           status := "failed",
           metadata := mdUpdate w.metadata "last_error" "recorded" }

/-- The tenacity loop around `trigger_webhook` when every POST fails:
`@retry(stop=stop_after_attempt(MAX_RETRIES), ...)` calls the function again
whenever it raises, up to `fuel` calls in total. The function body re-raises
the `RequestException` while `retry_count < MAX_RETRIES` after the increment
(`webhook_service.py` lines 236-239) and returns `False` otherwise. Result:
final webhook state, number of POSTs made, and whether an exception escaped
the decorator (tenacity `RetryError`). -/
def tenacityAllFail : Webhook → Nat → Webhook × Nat × Bool
  | w, 0 => (w, 0, true)
  | w, fuel + 1 =>
    let w' := trigger_fail_step w
    if w'.retry_count < MAX_RETRIES then
      if fuel = 0 then (w', 1, true)
      else
        let r := tenacityAllFail w' fuel
        (r.1, r.2.1 + 1, r.2.2)
    else (w', 1, false)

/-- A `trigger_webhook` call in which every POST fails. -/
def trigger_webhook_all_fail (w : Webhook) : Webhook × Nat × Bool :=
  tenacityAllFail w MAX_RETRIES

/-- `process_webhook_event` (`webhook_tasks.py` lines 81-154) when every POST
fails: the task first parks the webhook in `"processing"` (line 82), then
calls `trigger_webhook`. If a tenacity `RetryError` escaped, the generic
handler (lines 144-154) records the error and returns `False` with no celery
retry. If `trigger_webhook` returned `False`, lines 119-139 increment
`retry_count` once more, set `"failed"`, and schedule a celery retry only if
the incremented count is still below `MAX_RETRIES`. Result: final webhook
state, number of POSTs made, and whether a further automatic attempt was
scheduled. -/
def process_webhook_event_all_fail (w : Webhook) : Webhook × Nat × Bool :=
  let wp := { w with status := "processing" }
  let r := trigger_webhook_all_fail wp
  let w' := r.1
  if r.2.2 then
    ({ w' with status := "failed",
               metadata := mdUpdate w'.metadata "error" "recorded" },
     r.2.1, false)
  else
    let w'' := { w' with retry_count := w'.retry_count + 1,
                         status := "failed",
                         metadata := mdUpdate w'.metadata "error" "recorded" }
    (w'', r.2.1, decide (w''.retry_count < MAX_RETRIES))

/-- The success branch of `process_webhook_event` (`webhook_tasks.py` lines
104-117): after `trigger_webhook` returned `True` the task itself sets
`status="delivered"`, `delivered=True`, stamps `delivered_at` and rewrites
the metadata. This is the only place the `delivered` boolean is set. -/
def process_webhook_event_delivered (w : Webhook) (tnow : Nat) : Webhook :=
  { w with status := "delivered", delivered := true,
           delivered_at := some tnow,
           metadata := mdUpdate w.metadata "last_delivery" "recorded" }

/-- A concrete freshly registered webhook used for witnesses. -/
def sampleWebhook : Webhook :=
  register_webhook "wh-1" "app-1" "application.processed" "https://example.com/hook"

/-! ## Basic evaluation lemmas -/

theorem listMean_pair (a b : ℚ) : listMean [a, b] = (a + b) / 2 := by
  simp [listMean]

theorem validConfs_eq_filter (l : List ℚ) :
    validConfs l = l.filter (fun x => decide (x ≠ -1)) := by
  induction l with
  | nil => rfl
  | cons x rest ih =>
    by_cases h : x = -1 <;> simp [validConfs, List.filter, h, ih]

theorem clamp_nonneg (x : ℚ) : 0 ≤ max 0 (min 1 x) := le_max_left 0 _

theorem clamp_le_one (x : ℚ) : max 0 (min 1 x) ≤ 1 :=
  max_le (by norm_num) (min_le_left 1 x)

theorem calculate_confidence_score_mem (t : String) (conf : List ℚ) :
    0 ≤ calculate_confidence_score t conf ∧ calculate_confidence_score t conf ≤ 1 := by
  by_cases h1 : t = ""
  · simp [calculate_confidence_score, h1]
  · by_cases h2 : (validConfs conf).length = 0
    · simp [calculate_confidence_score, h1, h2]
    · have h3 : calculate_confidence_score t conf =
          max 0 (min 1 (listMean (validConfs conf) / 100 *
            (((if 10 ≤ pyWords t then (1 : ℚ) else 8 / 10) +
              (if listVar (validConfs conf) < 100 then (11 : ℚ) / 10
               else if listVar (validConfs conf) < 400 then 1 else 9 / 10)) / 2))) := by
        simp only [calculate_confidence_score, if_neg h1, if_neg h2]
      rw [h3]
      exact ⟨clamp_nonneg _, clamp_le_one _⟩

theorem round4_zero : round4 0 = 0 := by
  norm_num [round4, roundHalfEven]

theorem ocr_task_status_terminal (s : ℚ) :
    ocr_task_status s ∈ TERMINAL_STATUSES := by
  unfold ocr_task_status TERMINAL_STATUSES
  split
  · simp
  · split <;> simp

/-- The two threshold sites (`process_document`, `ocr_task`) use the same
constants, so they assign identical statuses. -/
theorem status_sites_agree (s : ℚ) :
    process_document_status s = ocr_task_status s := by
  unfold process_document_status ocr_task_status AUTO_APPROVE_THRESHOLD
    MANUAL_REVIEW_THRESHOLD
  rfl

/-! ## Claim C1 -/

/-- C1, counterexample: on the text `"Invoice Total $500"` with confidences
`[98, 97, 95, 99]`, `calculate_confidence_score` returns the unrounded clamp
`0.923875`, while the claimed reference definition (which rounds to 4 decimal
places) yields `0.9239`; the two differ, so `calculate_confidence_score`
alone does not equal the reference definition. -/
theorem calculate_confidence_score_not_rounded_cex :
    calculate_confidence_score "Invoice Total $500" [98, 97, 95, 99] = 7391 / 8000 ∧
    referenceScore "Invoice Total $500" [98, 97, 95, 99] = 9239 / 10000 ∧
    calculate_confidence_score "Invoice Total $500" [98, 97, 95, 99] ≠
      referenceScore "Invoice Total $500" [98, 97, 95, 99] := by
  have hw : pyWords "Invoice Total $500" = 3 := by decide
  have hne : ("Invoice Total $500" : String) ≠ "" := by decide
  have h1 : calculate_confidence_score "Invoice Total $500" [98, 97, 95, 99] =
      7391 / 8000 := by
    norm_num [calculate_confidence_score, hne, hw, validConfs, listMean, listVar]
  have h2 : referenceScore "Invoice Total $500" [98, 97, 95, 99] =
      9239 / 10000 := by
    norm_num [referenceScore, hne, hw, validConfs, listMean, listVar, round4,
      roundHalfEven, Int.floor_eq_iff]
    simp
  exact ⟨h1, h2, by rw [h1, h2]; norm_num⟩

/-- C1, amended: `calculate_confidence_score` equals the reference definition
in every respect except the final rounding — it returns the value clamped to
`[0,1]` but unrounded; the rounding to 4 decimal places is performed by the
schema validator `OCRBase.validate_confidence_score`, so the validated score
equals the full reference definition for every text and confidence list. -/
theorem scorer_with_schema_rounding_matches_reference (t : String) (conf : List ℚ) :
    validate_confidence_score (calculate_confidence_score t conf) =
      Except.ok (referenceScore t conf) ∧
    round4 (calculate_confidence_score t conf) = referenceScore t conf := by
  have hmem := calculate_confidence_score_mem t conf
  have hcore : round4 (calculate_confidence_score t conf) = referenceScore t conf := by
    by_cases h1 : t = ""
    · simp [calculate_confidence_score, referenceScore, h1, round4_zero]
    · by_cases h2 : validConfs conf = []
      · simp [calculate_confidence_score, referenceScore, h1, h2, round4_zero]
      · have h2' : ¬(validConfs conf).length = 0 := by
          simpa [List.length_eq_zero] using h2
        have hneg : ¬(t = "" ∨ validConfs conf = []) := by
          push_neg
          exact ⟨h1, h2⟩
        simp only [calculate_confidence_score, referenceScore, if_neg h1,
          if_neg h2', if_neg hneg, listMean_pair]
  refine ⟨?_, hcore⟩
  unfold validate_confidence_score
  rw [if_neg (by push_neg; exact hmem), hcore]

/-! ## Claim C2 -/

/-- C2: for any confidence score `s`, both status-assignment sites of the
pipeline (`process_document` and `ocr_task`) map `s ≥ 0.95` to `processed`,
`0.70 ≤ s < 0.95` to `needs_review` and `s < 0.70` to `failed`; in
particular `0.95 ↦ processed`, `0.9499 ↦ needs_review`, `0.6999 ↦ failed`. -/
theorem pipeline_status_thresholds (s : ℚ) :
    (0.95 ≤ s →
      process_document_status s = "processed" ∧ ocr_task_status s = "processed") ∧
    (0.70 ≤ s ∧ s < 0.95 →
      process_document_status s = "needs_review" ∧
      ocr_task_status s = "needs_review") ∧
    (s < 0.70 →
      process_document_status s = "failed" ∧ ocr_task_status s = "failed") ∧
    process_document_status 0.95 = "processed" ∧
    process_document_status 0.9499 = "needs_review" ∧
    process_document_status 0.6999 = "failed" ∧
    ocr_task_status 0.95 = "processed" ∧
    ocr_task_status 0.9499 = "needs_review" ∧
    ocr_task_status 0.6999 = "failed" := by
  refine ⟨?_, ?_, ?_, ?_, ?_, ?_, ?_, ?_, ?_⟩
  · intro h
    rw [status_sites_agree]
    unfold ocr_task_status
    rw [if_pos h]
    exact ⟨rfl, rfl⟩
  · intro h
    rw [status_sites_agree]
    unfold ocr_task_status
    rw [if_neg (not_le.mpr h.2), if_pos h.1]
    exact ⟨rfl, rfl⟩
  · intro h
    rw [status_sites_agree]
    unfold ocr_task_status
    rw [if_neg (not_le.mpr (h.trans (by norm_num))), if_neg (not_le.mpr h)]
    exact ⟨rfl, rfl⟩
  all_goals norm_num [process_document_status, ocr_task_status,
    AUTO_APPROVE_THRESHOLD, MANUAL_REVIEW_THRESHOLD]

/-- C2, witness: the threshold theorem applied at the concrete scores 1,
0.8 and 0.5. -/
theorem pipeline_status_thresholds_witness :
    process_document_status 1 = "processed" ∧
    process_document_status (8 / 10) = "needs_review" ∧
    process_document_status (1 / 2) = "failed" :=
  ⟨((pipeline_status_thresholds 1).1 (by norm_num)).1,
   ((pipeline_status_thresholds (8 / 10)).2.1 ⟨by norm_num, by norm_num⟩).1,
   ((pipeline_status_thresholds (1 / 2)).2.2.1 (by norm_num)).1⟩

/-! ## Claim C8 -/

/-- C8: on the text `"Invoice Total $500"` (3 words) with word confidences
`[98, 97, 95, 99]`, the scorer's base is `0.9725`, the length factor `0.8`
(fewer than 10 words), the consistency factor `1.1` (standard deviation
below 10, i.e. variance below 100), the final score is
`0.9725 * 0.95 = 0.923875`, and the resulting document status — whether
computed from the raw score by `process_document` or from the 4-decimal
rounded score by `ocr_task` — is `needs_review`. -/
theorem invoice_scenario_needs_review :
    pyWords "Invoice Total $500" = 3 ∧
    listMean (validConfs [98, 97, 95, 99]) / 100 = 9725 / 10000 ∧
    listVar (validConfs [98, 97, 95, 99]) < 100 ∧
    calculate_confidence_score "Invoice Total $500" [98, 97, 95, 99] =
      923875 / 1000000 ∧
    process_document_status (923875 / 1000000) = "needs_review" ∧
    ocr_task_status (round4 (923875 / 1000000)) = "needs_review" := by
  have hw : pyWords "Invoice Total $500" = 3 := by decide
  have hne : ("Invoice Total $500" : String) ≠ "" := by decide
  refine ⟨hw, ?_, ?_, ?_, ?_, ?_⟩
  · norm_num [validConfs, listMean]
  · norm_num [validConfs, listVar, listMean]
  · norm_num [calculate_confidence_score, hne, hw, validConfs, listMean, listVar]
  · norm_num [process_document_status, AUTO_APPROVE_THRESHOLD,
      MANUAL_REVIEW_THRESHOLD]
  · norm_num [ocr_task_status, round4, roundHalfEven, Int.floor_eq_iff]

/-! ## Claim C5 -/

/-- C5 (code bug): a document whose storage path ends in the unsupported
extension `.txt` makes `process_document` raise `CustomException` with code
`VALIDATION_ERROR`; but the `ocr_task` handler exempts only `ValueError` and
`KeyError` from retry, so this validation failure takes the retry path
(status `retry_pending`, `self.retry` scheduled) — contradicting both the
specification and the handler's own `Don't retry for validation errors`
comment. Only the task-level missing-document `ValueError` is exempted. -/
theorem validation_error_takes_retry_path :
    process_document_validation true "uploads/scan.txt" =
      some (.customException "VALIDATION_ERROR" "Unsupported file format") ∧
    ocr_task_retries_on
      (.customException "VALIDATION_ERROR" "Unsupported file format") = true ∧
    ocr_task_retries_on (.valueError "Document not found") = false := by
  refine ⟨?_, rfl, rfl⟩
  decide

/-! ## Claim C6 -/

/-- C6, counterexample: the state reached by starting processing on a fresh
document and then running the `OCRTask.on_failure` handler is reachable, has
the terminal status `failed`, and has no confidence score — refuting the
claimed "confidence_score non-null iff status terminal" biconditional. -/
theorem failed_without_confidence_cex :
    DocReach (doc_on_failure (doc_start_processing doc_init)) ∧
    ¬(((doc_on_failure (doc_start_processing doc_init)).confidence_score.isSome
        = true) ↔
      (doc_on_failure (doc_start_processing doc_init)).status ∈
        TERMINAL_STATUSES) := by
  constructor
  · exact DocReach.fail (DocReach.start DocReach.init (Or.inl rfl))
  · simp [doc_on_failure, doc_start_processing, doc_init, TERMINAL_STATUSES]

/-- C6, amended: one direction of the claimed invariant holds — every
reachable document with a non-null confidence score has a terminal status
(no path sets `confidence_score` while the status is `pending`,
`processing` or `retry_pending`); the converse fails, because the
`OCRTask.on_failure` handler sets `status="failed"` without writing a
confidence score. -/
theorem confidence_implies_terminal (d : Doc) (h : DocReach d)
    (hs : d.confidence_score.isSome = true) :
    d.status ∈ TERMINAL_STATUSES := by
  induction h with
  | init => simp [doc_init] at hs
  | start hd hst ih =>
    have hterm := ih hs
    rcases hst with h1 | h1 <;> rw [h1] at hterm <;>
      simp [TERMINAL_STATUSES] at hterm
  | success s hd hst ih =>
    simpa [doc_success] using ocr_task_status_terminal s
  | retry hd hst ih =>
    have hterm := ih hs
    rw [hst] at hterm
    simp [TERMINAL_STATUSES] at hterm
  | fail hd ih =>
    simp [doc_on_failure, TERMINAL_STATUSES]

/-- C6, witness: the amended invariant applied to the concrete reachable
document produced by a successful processing run with score 1. -/
theorem confidence_implies_terminal_witness :
    (doc_success (doc_start_processing doc_init) 1).status ∈
      TERMINAL_STATUSES :=
  confidence_implies_terminal _
    (DocReach.success 1 (DocReach.start DocReach.init (Or.inl rfl)) rfl)
    (by simp [doc_success])

/-! ## Claim C7 -/

/-- C7, counterexample: the retry path of `ocr_task` persists the status
`"retry_pending"`, which lies outside the specification's five-value
enumeration; the state is reachable from a fresh document via a transient
failure. -/
theorem retry_pending_outside_spec_enum_cex :
    DocReach (doc_retry_pending (doc_start_processing doc_init)) ∧
    (doc_retry_pending (doc_start_processing doc_init)).status ∉
      SPEC_STATUSES := by
  constructor
  · exact DocReach.retry (DocReach.start DocReach.init (Or.inl rfl)) rfl
  · simp [doc_retry_pending, doc_start_processing, doc_init, SPEC_STATUSES]

/-- C7, amended: every status the pipeline persists on a document is one of
`pending`, `processing`, `processed`, `needs_review`, `failed` or
`retry_pending` — the specified five plus the `retry_pending` parking status
written by the transient-failure retry path. -/
theorem reachable_status_enumeration (d : Doc) (h : DocReach d) :
    d.status ∈ PIPELINE_STATUSES := by
  induction h with
  | init => simp [doc_init, PIPELINE_STATUSES]
  | start hd hst ih => simp [doc_start_processing, PIPELINE_STATUSES]
  | success s hd hst ih =>
    have hmem := ocr_task_status_terminal s
    simp only [TERMINAL_STATUSES, List.mem_cons, List.not_mem_nil, or_false]
      at hmem
    simp only [doc_success, PIPELINE_STATUSES, List.mem_cons, List.not_mem_nil,
      or_false]
    tauto
  | retry hd hst ih => simp [doc_retry_pending, PIPELINE_STATUSES]
  | fail hd ih => simp [doc_on_failure, PIPELINE_STATUSES]

/-- C7, witness: the status enumeration applied to the reachable document
parked by a transient failure. -/
theorem reachable_status_enumeration_witness :
    (doc_retry_pending (doc_start_processing doc_init)).status ∈
      PIPELINE_STATUSES :=
  reachable_status_enumeration _
    (DocReach.retry (DocReach.start DocReach.init (Or.inl rfl)) rfl)

/-! ## Claim C3 -/

/-- C3: starting from a webhook with `retry_count = 0`, the tenacity loop
around `trigger_webhook` calls the function three times when every POST
fails; after the third failed call the record has `retry_count = 3` and
`status = "failed"`, exactly 3 POSTs were made, no exception escapes the
loop (the third call returns `False` instead of re-raising), and the
task-level `process_webhook_event` wrapper schedules no further automatic
attempt — so no 4th POST ever occurs without a manual re-trigger. -/
theorem trigger_three_failed_calls (w : Webhook) (h : w.retry_count = 0) :
    (trigger_webhook_all_fail w).1.retry_count = 3 ∧
    (trigger_webhook_all_fail w).1.status = "failed" ∧
    (trigger_webhook_all_fail w).2.1 = 3 ∧
    (trigger_webhook_all_fail w).2.2 = false ∧
    (process_webhook_event_all_fail w).2.1 = 3 ∧
    (process_webhook_event_all_fail w).2.2 = false := by
  simp [trigger_webhook_all_fail, process_webhook_event_all_fail,
    tenacityAllFail, trigger_fail_step, MAX_RETRIES, h]

/-- C3, witness: the retry-exhaustion theorem applied to a concrete freshly
registered webhook. -/
theorem trigger_three_failed_calls_witness :
    (trigger_webhook_all_fail sampleWebhook).1.retry_count = 3 ∧
    (trigger_webhook_all_fail sampleWebhook).1.status = "failed" ∧
    (trigger_webhook_all_fail sampleWebhook).2.1 = 3 ∧
    (trigger_webhook_all_fail sampleWebhook).2.2 = false ∧
    (process_webhook_event_all_fail sampleWebhook).2.1 = 3 ∧
    (process_webhook_event_all_fail sampleWebhook).2.2 = false :=
  trigger_three_failed_calls sampleWebhook rfl

/-! ## Claim C4 -/

/-- C4, counterexample: for a freshly registered webhook whose deliveries all
fail, `process_webhook_event` increments `retry_count` once more after
`trigger_webhook`'s internal loop has already driven it to 3, so the
persisted record reaches `retry_count = 4 > MAX_RETRIES` — the claimed
invariant `retry_count ≤ MAX_RETRIES` is not preserved by the dispatch
subsystem. -/
theorem retry_count_exceeds_bound_cex :
    (process_webhook_event_all_fail sampleWebhook).1.retry_count = 4 ∧
    ¬((process_webhook_event_all_fail sampleWebhook).1.retry_count ≤
        MAX_RETRIES) := by
  decide

/-- C4, amended: `trigger_webhook`'s own retry loop respects the bound — from
`retry_count = 0` it ends at exactly `MAX_RETRIES` — but the
`process_webhook_event` failure path increments the counter once more, so the
bound reachable through one task invocation is `MAX_RETRIES + 1 = 4`, not
`MAX_RETRIES`. -/
theorem retry_count_amended_bound (w : Webhook) (h : w.retry_count = 0) :
    (trigger_webhook_all_fail w).1.retry_count ≤ MAX_RETRIES ∧
    (process_webhook_event_all_fail w).1.retry_count = MAX_RETRIES + 1 := by
  simp [trigger_webhook_all_fail, process_webhook_event_all_fail,
    tenacityAllFail, trigger_fail_step, MAX_RETRIES, h]

/-- C4, witness: the amended bound applied to a concrete freshly registered
webhook. -/
theorem retry_count_amended_bound_witness :
    (trigger_webhook_all_fail sampleWebhook).1.retry_count ≤ MAX_RETRIES ∧
    (process_webhook_event_all_fail sampleWebhook).1.retry_count =
      MAX_RETRIES + 1 :=
  retry_count_amended_bound sampleWebhook rfl

/-! ## Claim C9 -/

/-- C9: for every triggered webhook, the POST body contains exactly the
fields `event`, `application_id` (the stringified UUID), `timestamp`, `data`
(the supplied payload) and `metadata` with `processing_time` and version
`"1.0"`, and the request carries exactly the headers `Authorization` (a
bearer token), `Content-Type`, `X-Webhook-Event` and `X-Webhook-ID`. -/
theorem webhook_wire_contract (w : Webhook) (data : JVal) (now token : String) :
    (formatted_payload w data now).map Prod.fst =
      ["event", "application_id", "timestamp", "data", "metadata"] ∧
    (formatted_payload w data now).lookup "event" = some (.str w.event) ∧
    (formatted_payload w data now).lookup "application_id" =
      some (.str w.application_id) ∧
    (formatted_payload w data now).lookup "timestamp" = some (.str now) ∧
    (formatted_payload w data now).lookup "data" = some data ∧
    (formatted_payload w data now).lookup "metadata" =
      some (.obj [("processing_time", .num 0), ("version", .str "1.0")]) ∧
    (trigger_headers w token).map Prod.fst =
      ["Authorization", "Content-Type", "X-Webhook-Event", "X-Webhook-ID"] ∧
    (trigger_headers w token).lookup "Authorization" =
      some ("Bearer " ++ token) ∧
    (trigger_headers w token).lookup "X-Webhook-Event" = some w.event ∧
    (trigger_headers w token).lookup "X-Webhook-ID" = some w.id := by
  simp [formatted_payload, trigger_headers, List.lookup]

/-! ## Claim C10 -/

/-- C10: on a successful 2xx delivery `trigger_webhook` sets the status to
`delivered`, stamps `delivered_at`, records a `last_delivery` metadata entry
and returns `True`, while the `delivered` boolean column is left exactly as
it was — `false` for a freshly registered webhook; only the task-level
`process_webhook_event` success branch sets `delivered` to `true`. -/
theorem trigger_success_leaves_delivered_flag (w : Webhook) (tnow : Nat)
    (wid appid ev url : String) :
    (trigger_success w tnow).1.status = "delivered" ∧
    (trigger_success w tnow).1.delivered_at = some tnow ∧
    ((trigger_success w tnow).1.metadata.lookup "last_delivery").isSome = true ∧
    (trigger_success w tnow).2 = true ∧
    (trigger_success w tnow).1.delivered = w.delivered ∧
    (register_webhook wid appid ev url).delivered = false ∧
    (trigger_success (register_webhook wid appid ev url) tnow).1.delivered
      = false ∧
    (process_webhook_event_delivered w tnow).delivered = true := by
  simp [trigger_success, register_webhook, process_webhook_event_delivered,
    mdUpdate, List.lookup]
